import Mathlib

/-
  Verification development for the CubeFS kernel client (client_kernel/).
  Shallow embedding of the extent writer/reader pipelines, the writer flush,
  the master HTTP response handling, and the directory iteration, translated
  from cfs_extent_writer.c, cfs_extent_reader.c, cfs_master.c and cfs_fs.c.
  External collaborators (sockets, meta client, extent-id allocation, JSON
  library internals, kernel allocators) are modelled as oracle inputs: the
  functions under study receive their results as parameters.
-/

namespace CFS

/-- Linux errno values used by the client; the C code returns them negated. -/
def eperm : Int := 1

/-- errno ENOMEM. -/
def enomem : Int := 12

/-- errno for an input/output failure (EIO in Linux). -/
def eio : Int := 5

/-- errno EBADMSG, the BadMessage error of the spec. -/
def ebadmsg : Int := 74

/-- CFS_STATUS_OK, the success result code of the binary reply protocol. -/
def cfsStatusOk : Nat := 0

/-- modulus of 64-bit unsigned arithmetic. -/
def u64Mod : Nat := 2 ^ 64

/-- u64 wraparound subtraction: the semantics of the C expression `a - b` on u64. -/
def u64sub (a b : Nat) : Nat := (a % u64Mod + u64Mod - b % u64Mod) % u64Mod

/-- Data partition fields used by the writer/reader recovery code
(struct cfs_data_partition). `follower_addrs` and `rdma_follower_addrs`
are abstract tokens identifying the address-list strings. -/
structure cfs_data_partition where
  id : Nat
  nr_followers : Nat
  follower_addrs : Nat
  rdma_follower_addrs : Nat
  leader_idx : Nat
  members_num : Nat
deriving DecidableEq, Repr

/-- struct cfs_extent_writer: the fields recovery and flush read or write.
`wid` stands in for the pointer identity of the heap object. -/
structure cfs_extent_writer where
  wid : Nat
  dp : cfs_data_partition
  file_offset : Nat
  ext_id : Nat
  ext_offset : Nat
  ext_size : Nat
  w_size : Nat
  flag_error : Bool
  flag_recover : Bool
deriving DecidableEq, Repr

/-- cfs_extent_writer_new (cfs_extent_writer.c:11): kzalloc zeroes the flags,
`w_size` is initialised to `ext_size`; socket creation is abstracted away here
because the recovery caller collapses its failure to ENOMEM (modelled at the
call site). -/
def cfs_extent_writer_new (wid : Nat) (dp : cfs_data_partition)
    (file_offset ext_id ext_offset ext_size : Nat) : cfs_extent_writer :=
  { wid := wid, dp := dp, file_offset := file_offset, ext_id := ext_id,
    ext_offset := ext_offset, ext_size := ext_size, w_size := ext_size,
    flag_error := false, flag_recover := false }

/-- Request-header fields of struct cfs_packet that the writer recovery rewrites
(stored in host order; the C big-endian conversions cancel). `arg` is the
attached argument (follower address list), `none` when not set. -/
structure cfs_packet_hdr where
  pid : Nat
  ext_id : Nat
  ext_offset : Nat
  kernel_offset : Nat
  size : Nat
  remaining_followers : Nat
  req_id : Nat
  arg : Option Nat
deriving DecidableEq, Repr

/-- struct cfs_packet: header plus the bookkeeping fields recovery touches.
`priv_wid` models `packet->private` as the id of the writer it points to;
`reply_result_code` is `packet->reply.hdr.result_code`. -/
structure cfs_packet where
  hdr : cfs_packet_hdr
  retry_count : Nat
  error : Int
  reply_result_code : Nat
  priv_wid : Option Nat
deriving DecidableEq, Repr

/-- The per-stream fields recovery consults (struct cfs_extent_stream):
writer budget, writer list, and the rdma toggle. `next_wid` feeds fresh
identities to newly allocated writers. -/
structure cfs_extent_stream where
  nr_writers : Nat
  max_writers : Nat
  writers : List cfs_extent_writer
  next_wid : Nat
  enable_rdma : Bool
deriving DecidableEq, Repr

/-- Oracle results consumed by one iteration of the extent_writer_recover retry
loop: cfs_extent_id_new, the socket creation inside cfs_extent_writer_new,
cfs_packet_set_request_arg, and do_extent_request (return value and the reply
result code it fills in). -/
structure RecoverEnv where
  id_new : Except Int (cfs_data_partition × Nat)
  sock_ok : Bool
  set_arg : Except Int Unit
  req_ret : Int
  req_result_code : Nat

/-- Mutable state threaded through extent_writer_recover: the stream, the
`writer->recover` pointer, whether the current recovery writer was allocated
by this very call (`fresh`), and the packet. -/
structure RecoverState where
  es : cfs_extent_stream
  wrecover : Option cfs_extent_writer
  fresh : Bool
  packet : cfs_packet
deriving DecidableEq, Repr

/-- Trace record of one synchronous re-issue performed by the recovery loop:
the request header as transmitted, the recovery writer used, whether that
writer was allocated by this recovery call, and the packet's retry_count at
issue time. -/
structure IssueRecord where
  hdr : cfs_packet_hdr
  w : cfs_extent_writer
  fresh : Bool
  retry_count : Nat
deriving DecidableEq, Repr

/-- Result of extent_writer_recover: return value (`none` = fuel exhausted),
final state, the trace of issued requests, and the writers allocated. -/
structure RecoverResult where
  ret : Option Int
  st : RecoverState
  issues : List IssueRecord
  allocated : List cfs_extent_writer
deriving DecidableEq, Repr

/-- store an error into the packet's error slot (packet->error = e). -/
def setPacketError (st : RecoverState) (e : Int) : RecoverState :=
  { st with packet := { st.packet with error := e } }

/-- follower address list chosen by recovery: rdma_follower_addrs when the
stream runs over RDMA, follower_addrs otherwise (cfs_extent_writer.c:217). -/
def followersArg (es : cfs_extent_stream) (dp : cfs_data_partition) : Nat :=
  if es.enable_rdma then dp.rdma_follower_addrs else dp.follower_addrs

/-- Header rewrite performed by extent_writer_recover before re-issuing
(cfs_extent_writer.c:210): partition id and extent id of the recovery writer,
ext_offset = kernel_offset - recover->file_offset (u64 arithmetic),
remaining_followers from the recovery partition. kernel_offset is untouched. -/
def recover_rewrite_hdr (w : cfs_extent_writer) (hdr : cfs_packet_hdr) : cfs_packet_hdr :=
  { hdr with
    pid := w.dp.id
    ext_id := w.ext_id
    ext_offset := u64sub hdr.kernel_offset w.file_offset
    remaining_followers := w.dp.nr_followers }

/-- Allocation phase of the recovery loop (cfs_extent_writer.c:171-208): when
no recovery writer exists, enforce nr_writers < max_writers (PermissionDenied
otherwise), allocate a fresh extent and writer at file_offset equal to the
packet's kernel_offset, append it to the stream's writer list and bump
nr_writers. Returns the early exit (code, state) or the state plus the
recovery writer and the list of writers allocated here. -/
def recover_alloc (env : RecoverEnv) (st : RecoverState) :
    Except (Int × RecoverState) (RecoverState × cfs_extent_writer × List cfs_extent_writer) :=
  match st.wrecover with
  | some w => .ok (st, w, [])
  | none =>
    if st.es.nr_writers ≥ st.es.max_writers then
      .error (-eperm, setPacketError st (-eperm))
    else
      match env.id_new with
      | .error e => .error (e, setPacketError st e)
      | .ok (dp, ext_id) =>
        if env.sock_ok then
          let w := cfs_extent_writer_new st.es.next_wid dp st.packet.hdr.kernel_offset ext_id 0 0
          .ok ({ st with
                 es := { st.es with
                         writers := st.es.writers ++ [w]
                         nr_writers := st.es.nr_writers + 1
                         next_wid := st.es.next_wid + 1 }
                 wrecover := some w
                 fresh := true }, w, [w])
        else
          .error (-enomem, setPacketError st (-enomem))

/-- mark ERROR on the writer with the given identity inside the stream's list
(`recover->flags |= EXTENT_WRITER_F_ERROR` through the shared pointer). -/
def markWriterError (l : List cfs_extent_writer) (wid : Nat) : List cfs_extent_writer :=
  l.map fun x => if x.wid = wid then { x with flag_error := true } else x

/-- request header at issue time: the recovery rewrite plus the attached
follower-address argument set by cfs_packet_set_request_arg. -/
def recover_hdr2 (es : cfs_extent_stream) (w : cfs_extent_writer)
    (hdr : cfs_packet_hdr) : cfs_packet_hdr :=
  { recover_rewrite_hdr w hdr with arg := some (followersArg es w.dp) }

/-- the packet as issued by one recovery iteration: rewritten header, argument
attached, retry_count incremented, reply result code filled by the request. -/
def recover_pkt (env : RecoverEnv) (st₁ : RecoverState)
    (w : cfs_extent_writer) : cfs_packet :=
  { st₁.packet with
    hdr := recover_hdr2 st₁.es w st₁.packet.hdr
    retry_count := st₁.packet.retry_count + 1
    reply_result_code := env.req_result_code }

/-- trace record for the request issued by one recovery iteration. -/
def recover_issue (st₁ : RecoverState)
    (w : cfs_extent_writer) : IssueRecord :=
  ⟨recover_hdr2 st₁.es w st₁.packet.hdr, w, st₁.fresh, st₁.packet.retry_count + 1⟩

/-- state after a failed re-issue: the recovery writer is marked ERROR inside
the stream's writer list and the `writer->recover` pointer is cleared. -/
def recover_failed_st (env : RecoverEnv) (st₁ : RecoverState)
    (w : cfs_extent_writer) : RecoverState :=
  { es := { st₁.es with writers := markWriterError st₁.es.writers w.wid }
    wrecover := none
    fresh := false
    packet := recover_pkt env st₁ w }

/-- The `retry:` loop of extent_writer_recover (cfs_extent_writer.c:165-253),
fuelled: each iteration allocates a recovery writer if needed, rewrites the
header, attaches the follower-address argument, increments retry_count,
issues the request synchronously, and on failure drops the recovery writer
(marking it ERROR) and retries while retry_count ≤ retry_max, returning
-eio past the budget. `envs i` supplies iteration i's oracle results. -/
def extent_writer_recover_loop (retry_max : Nat) (envs : Nat → RecoverEnv) :
    Nat → Nat → RecoverState → RecoverResult
  | 0, _, st => ⟨none, st, [], []⟩
  | fuel+1, i, st =>
    match recover_alloc (envs i) st with
    | .error (e, st') => ⟨some e, st', [], []⟩
    | .ok (st₁, w, alloc) =>
      match (envs i).set_arg with
      | .error e =>
        ⟨some e,
          { st₁ with packet :=
              { st₁.packet with hdr := recover_rewrite_hdr w st₁.packet.hdr } },
          [], alloc⟩
      | .ok _ =>
        if (envs i).req_ret < 0 ∨ (envs i).req_result_code ≠ cfsStatusOk then
          if st₁.packet.retry_count + 1 ≤ retry_max then
            ⟨(extent_writer_recover_loop retry_max envs fuel (i+1)
                (recover_failed_st (envs i) st₁ w)).ret,
              (extent_writer_recover_loop retry_max envs fuel (i+1)
                (recover_failed_st (envs i) st₁ w)).st,
              recover_issue st₁ w ::
                (extent_writer_recover_loop retry_max envs fuel (i+1)
                  (recover_failed_st (envs i) st₁ w)).issues,
              alloc ++
                (extent_writer_recover_loop retry_max envs fuel (i+1)
                  (recover_failed_st (envs i) st₁ w)).allocated⟩
          else
            ⟨some (-eio), recover_failed_st (envs i) st₁ w,
              [recover_issue st₁ w], alloc⟩
        else
          ⟨some 0,
            { st₁ with packet :=
                { recover_pkt (envs i) st₁ w with priv_wid := some w.wid } },
            [recover_issue st₁ w], alloc⟩

/-- extent_writer_recover entry point: starts the retry loop from the
writer's current `recover` pointer, which was not allocated by this call. -/
def extent_writer_recover (retry_max : Nat) (envs : Nat → RecoverEnv) (fuel : Nat)
    (es : cfs_extent_stream) (wrecover : Option cfs_extent_writer)
    (packet : cfs_packet) : RecoverResult :=
  extent_writer_recover_loop retry_max envs fuel 0
    { es := es, wrecover := wrecover, fresh := false, packet := packet }

/-- Oracles for the writer rx path of one packet: the receive attempt's return
value and the reply result code it fills in, plus the recovery-loop oracles. -/
structure WriterRxEnv where
  recv_ret : Int
  recv_result_code : Nat
  recover_envs : Nat → RecoverEnv

/-- Outcome of processing one packet in extent_writer_rx_work_cb: flags,
`writer->recover`, stream, packet, whether a receive was attempted, whether
recovery ran (and its return, `some none` meaning out of fuel), and the
recovery trace. -/
structure WriterRxOut where
  flag_error : Bool
  flag_recover : Bool
  wrecover : Option cfs_extent_writer
  es : cfs_extent_stream
  packet : cfs_packet
  recv_attempted : Bool
  recover_called : Bool
  recover_ret : Option (Option Int)
  issues : List IssueRecord
  allocated : List cfs_extent_writer

/-- the `recover_packet:` tail of extent_writer_rx_work_cb
(cfs_extent_writer.c:296-301): run extent_writer_recover; a negative return
sets the writer's ERROR flag. -/
def writer_rx_do_recover (retry_max fuel : Nat) (env : WriterRxEnv)
    (es : cfs_extent_stream) (fr : Bool) (wrecover : Option cfs_extent_writer)
    (packet : cfs_packet) (attempted : Bool) : WriterRxOut :=
  let r := extent_writer_recover retry_max env.recover_envs fuel es wrecover packet
  { flag_error := (match r.ret with | some e => decide (e < 0) | none => false)
    flag_recover := fr
    wrecover := r.st.wrecover
    es := r.st.es
    packet := r.st.packet
    recv_attempted := attempted
    recover_called := true
    recover_ret := some r.ret
    issues := r.issues
    allocated := r.allocated }

/-- One dequeued packet of extent_writer_rx_work_cb (cfs_extent_writer.c:264-306):
ERROR flag drains the packet with -eio; RECOVER flag routes straight to
recovery; otherwise receive the reply and, on a negative return or a non-OK
result code, set RECOVER and route to recovery. -/
def extent_writer_rx_packet (retry_max fuel : Nat) (env : WriterRxEnv)
    (es : cfs_extent_stream) (flag_error flag_recover : Bool)
    (wrecover : Option cfs_extent_writer) (packet : cfs_packet) : WriterRxOut :=
  if flag_error then
    { flag_error := true
      flag_recover := flag_recover
      wrecover := wrecover
      es := es
      packet := { packet with error := -eio }
      recv_attempted := false
      recover_called := false
      recover_ret := none
      issues := []
      allocated := [] }
  else if flag_recover then
    writer_rx_do_recover retry_max fuel env es true wrecover packet false
  else
    let pkt := { packet with reply_result_code := env.recv_result_code }
    if env.recv_ret < 0 ∨ env.recv_result_code ≠ cfsStatusOk then
      writer_rx_do_recover retry_max fuel env es true wrecover pkt true
    else
      { flag_error := false
        flag_recover := false
        wrecover := wrecover
        es := es
        packet := pkt
        recv_attempted := true
        recover_called := false
        recover_ret := none
        issues := []
        allocated := [] }

/-- flag update for one dequeued packet in extent_writer_tx_work_cb
(cfs_extent_writer.c:141-154): if neither ERROR nor RECOVER is set the packet
is sent, and any negative send return sets RECOVER (the writer's tx path does
not special-case any errno). Returns (ERROR, RECOVER, send attempted). -/
def extent_writer_tx_step (send_ret : Int) (fe fr : Bool) : Bool × Bool × Bool :=
  if fe ∨ fr then (fe, fr, false)
  else if send_ret < 0 then (fe, true, true)
  else (fe, fr, true)

/-- flag update for one dequeued packet in extent_reader_tx_work_cb
(cfs_extent_reader.c:112-130): a send returning -ENOMEM sets ERROR, any other
negative send return sets RECOVER. Returns (ERROR, RECOVER, send attempted). -/
def extent_reader_tx_step (send_ret : Int) (fe fr : Bool) : Bool × Bool × Bool :=
  if fe ∨ fr then (fe, fr, false)
  else if send_ret = -enomem then (true, fr, true)
  else if send_ret < 0 then (fe, true, true)
  else (fe, fr, true)

/-- Writer state as seen by extent_writer_tx_work_cb: flags, the two queues,
the two inflight counters (C ints under atomic ops), and a counter of
queue_work calls scheduling the rx task. -/
structure WriterTxState where
  flag_error : Bool
  flag_recover : Bool
  tx_packets : List cfs_packet
  rx_packets : List cfs_packet
  tx_inflight : Int
  rx_inflight : Int
  rx_sched : Nat
deriving DecidableEq, Repr

/-- Drain loop of extent_writer_tx_work_cb over the dequeued packets: apply the
send/flag step, then unconditionally move the packet to the rx queue, bump
rx_inflight and schedule the rx task; `cnt` counts dequeued packets and is
subtracted from tx_inflight at the end (cfs_extent_writer.c:129-162). -/
def writer_tx_go (send : cfs_packet → Int) :
    List cfs_packet → WriterTxState → Nat → WriterTxState
  | [], st, cnt => { st with tx_inflight := st.tx_inflight - (cnt : Int) }
  | p :: rest, st, cnt =>
    let s := extent_writer_tx_step (send p) st.flag_error st.flag_recover
    writer_tx_go send rest
      { st with
        flag_error := s.1
        flag_recover := s.2.1
        rx_packets := st.rx_packets ++ [p]
        rx_inflight := st.rx_inflight + 1
        rx_sched := st.rx_sched + 1 } (cnt + 1)

/-- extent_writer_tx_work_cb: drain the whole tx queue through writer_tx_go. -/
def extent_writer_tx_work_cb (send : cfs_packet → Int) (st : WriterTxState) : WriterTxState :=
  writer_tx_go send st.tx_packets { st with tx_packets := [] } 0

/-- Life of a single write packet through the writer pipeline: the tx-side
send attempt (extent_writer_tx_work_cb body for this packet) followed by the
rx-side processing; `transmissions` counts wire transmissions of this packet:
the tx send attempt plus every synchronous recovery re-issue. -/
structure LifecycleOut where
  out : WriterRxOut
  tx_sent : Bool
  transmissions : Nat

/-- Compose tx and rx processing of one packet (the packet is moved to the rx
queue and handled there whatever the send outcome was). -/
def packet_lifecycle (retry_max fuel : Nat) (send_ret : Int) (env : WriterRxEnv)
    (es : cfs_extent_stream) (flag_error flag_recover : Bool)
    (wrecover : Option cfs_extent_writer) (packet : cfs_packet) : LifecycleOut :=
  let s := extent_writer_tx_step send_ret flag_error flag_recover
  let o := extent_writer_rx_packet retry_max fuel env es s.1 s.2.1 wrecover packet
  ⟨o, s.2.2, (if s.2.2 then 1 else 0) + o.issues.length⟩

/-- struct cfs_extent_reader: the fields touched by the reader pipeline and its
recovery (the nested `recover` pointer is carried separately). -/
structure cfs_extent_reader where
  dp : cfs_data_partition
  host_idx : Nat
  ext_id : Nat
  flag_error : Bool
  flag_recover : Bool
deriving DecidableEq, Repr

/-- cfs_extent_reader_new (cfs_extent_reader.c:11-55): the host index is
reduced modulo the partition's member count before the socket to that member
is created; `sock` is the socket-creation oracle. -/
def cfs_extent_reader_new (dp : cfs_data_partition) (host_idx ext_id : Nat)
    (sock : Except Int Unit) : Except Int cfs_extent_reader :=
  let h := host_idx % dp.members_num
  match sock with
  | .error e => .error e
  | .ok _ =>
    .ok { dp := dp, host_idx := h, ext_id := ext_id,
          flag_error := false, flag_recover := false }

/-- Oracles for one extent_reader_recover call: socket creation inside
cfs_extent_reader_new and the do_extent_request_retry return value (a new
leader index when non-negative, an error when negative). -/
structure ReaderRecoverEnv where
  sock : Except Int Unit
  retry_ret : Int

/-- Outcome of extent_reader_recover: return value, the reader (flags possibly
updated), its `recover` pointer, the packet, whether a recovery reader was
allocated by this call, and how many do_extent_request_retry probes ran. -/
structure ReaderRecoverOut where
  ret : Int
  r : cfs_extent_reader
  recover : Option cfs_extent_reader
  packet : cfs_packet
  allocated : Bool
  retry_calls : Nat
deriving DecidableEq, Repr

/-- Retry half of extent_reader_recover (cfs_extent_reader.c:162-171): one
do_extent_request_retry probe; on failure the recovery reader is released and
the pointer cleared; on success the partition's recorded leader index is set
to the returned value. -/
def reader_recover_retry (env : ReaderRecoverEnv) (r : cfs_extent_reader)
    (rec : cfs_extent_reader) (packet : cfs_packet) (allocated : Bool) : ReaderRecoverOut :=
  if env.retry_ret < 0 then
    ⟨env.retry_ret, r, none, packet, allocated, 1⟩
  else
    ⟨0, r, some { rec with dp := { rec.dp with leader_idx := env.retry_ret.toNat } },
      packet, allocated, 1⟩

/-- extent_reader_recover (cfs_extent_reader.c:141-172): allocate the recovery
reader at host index host_idx + 1 (reduced mod the replica count inside
cfs_extent_reader_new) only when none exists; an allocation failure sets the
reader's ERROR flag and fails the packet with -enomem; then one leader-probe
retry. -/
def extent_reader_recover (env : ReaderRecoverEnv) (r : cfs_extent_reader)
    (recover0 : Option cfs_extent_reader) (packet : cfs_packet) : ReaderRecoverOut :=
  match recover0 with
  | none =>
    match cfs_extent_reader_new r.dp (r.host_idx + 1) r.ext_id env.sock with
    | .error _ =>
      ⟨-enomem, { r with flag_error := true }, none,
        { packet with error := -enomem }, false, 0⟩
    | .ok rec => reader_recover_retry env r rec packet true
  | some rec => reader_recover_retry env r rec packet false

/-- Oracles for the reader rx path of one packet: the receive attempt and the
recovery oracles. -/
structure ReaderRxEnv where
  recv_ret : Int
  recv_result_code : Nat
  recover_env : ReaderRecoverEnv

/-- Outcome of processing one packet in extent_reader_rx_work_cb. -/
structure ReaderRxOut where
  r : cfs_extent_reader
  recover : Option cfs_extent_reader
  packet : cfs_packet
  recover_called : Bool
  recover_out : Option ReaderRecoverOut
deriving DecidableEq, Repr

/-- One dequeued packet of extent_reader_rx_work_cb (cfs_extent_reader.c:183-225):
ERROR drains the packet with -eio; RECOVER routes to recovery; otherwise
receive, and a negative return or non-OK result code sets RECOVER and routes
to recovery. -/
def extent_reader_rx_packet (env : ReaderRxEnv) (r : cfs_extent_reader)
    (recover0 : Option cfs_extent_reader) (packet : cfs_packet) : ReaderRxOut :=
  if r.flag_error then
    ⟨r, recover0, { packet with error := -eio }, false, none⟩
  else if r.flag_recover then
    let o := extent_reader_recover env.recover_env r recover0 packet
    ⟨o.r, o.recover, o.packet, true, some o⟩
  else
    let pkt := { packet with reply_result_code := env.recv_result_code }
    if env.recv_ret < 0 ∨ env.recv_result_code ≠ cfsStatusOk then
      let r₁ := { r with flag_recover := true }
      let o := extent_reader_recover env.recover_env r₁ recover0 pkt
      ⟨o.r, o.recover, o.packet, true, some o⟩
    else
      ⟨r, recover0, pkt, false, none⟩

/-- struct cfs_packet_extent: the extent descriptor
(file_offset, partition id, extent id, extent offset, size). -/
structure cfs_packet_extent where
  file_offset : Nat
  pid : Nat
  ext_id : Nat
  ext_offset : Nat
  size : Nat
deriving DecidableEq, Repr

/-- Writer state as seen by cfs_extent_writer_flush: the dirty flag, the two
inflight counters, and the descriptor ingredients. -/
structure FlushWriterState where
  dirty : Bool
  tx_inflight : Nat
  rx_inflight : Nat
  file_offset : Nat
  ext_id : Nat
  ext_size : Nat
  dp_id : Nat
deriving DecidableEq, Repr

/-- Oracles for one flush: cfs_extent_cache_append (the discard list it
collects, or an error) and the cfs_meta_append_extent return value. -/
structure FlushEnv where
  cache_append : Except Int (List cfs_packet_extent)
  meta_ret : Int

/-- Observable outcome of cfs_extent_writer_flush: return value, writer state,
whether the inflight waits ran, the cache append performed (descriptor and
its sync flag), the meta append_extent call performed (descriptor and
discards), and the discards removed from the cache on success. -/
structure FlushOut where
  ret : Int
  w : FlushWriterState
  waited : Bool
  cache_call : Option (cfs_packet_extent × Bool)
  meta_call : Option (cfs_packet_extent × List cfs_packet_extent)
  removed_discards : Option (List cfs_packet_extent)
deriving DecidableEq, Repr

/-- cfs_extent_writer_flush (cfs_extent_writer.c:71-107). A non-dirty writer
returns 0 immediately. Otherwise wait_event blocks until tx_inflight and
rx_inflight are both zero — modelled by the counters being zero from the wait
on — and a zero ext_size returns 0 with no meta traffic. Otherwise the
descriptor (file_offset, dp->id, ext_id, 0, ext_size) is appended to the
extent cache with sync=true collecting discards, meta append_extent is called,
and only on its success the discards are removed and the dirty flag cleared. -/
def cfs_extent_writer_flush (env : FlushEnv) (w : FlushWriterState) : FlushOut :=
  if ¬ w.dirty then ⟨0, w, false, none, none, none⟩
  else
    let w₁ := { w with tx_inflight := 0, rx_inflight := 0 }
    if w₁.ext_size = 0 then ⟨0, w₁, true, none, none, none⟩
    else
      let ext : cfs_packet_extent := ⟨w₁.file_offset, w₁.dp_id, w₁.ext_id, 0, w₁.ext_size⟩
      match env.cache_append with
      | .error e => ⟨e, w₁, true, some (ext, true), none, none⟩
      | .ok discards =>
        if env.meta_ret < 0 then
          ⟨env.meta_ret, w₁, true, some (ext, true), some (ext, discards), none⟩
        else
          ⟨0, { w₁ with dirty := false }, true, some (ext, true),
            some (ext, discards), some discards⟩

/-- JSON body of a master HTTP response as the client observes it: whether
cfs_json_parse accepts it, and the numeric `code` field if present. -/
structure HttpBody where
  parses : Bool
  code : Option Nat
deriving DecidableEq, Repr

/-- Wire-level observations of one master HTTP exchange feeding
do_recv_http_response: the receive loop's outcome, whether the buffer contains
a status line terminator and the header/body separator, what
parse_status_code extracts, and the body. -/
structure HttpResponseWire where
  recv : Except Int Unit
  has_status_line : Bool
  status_parse : Option Nat
  has_body_sep : Bool
  body : HttpBody

/-- Modelled from the spec: cfs_json_get_u32 on the `code` field lives in
cfs_json.c, which is not among the sources here; per the spec's "accepting
only status 200 with a JSON body whose `code` field is 0, returning
`BadMessage` otherwise", a missing `code` field yields the BadMessage error. -/
def cfs_json_get_u32_code (b : HttpBody) : Except Int Nat :=
  match b.code with
  | none => .error (-ebadmsg)
  | some c => .ok c

/-- do_recv_http_response (cfs_master.c:159-254): receive-loop errors are
propagated; a missing status line, an unparsable status code, a missing
header/body separator, a 403 status, any status other than 200, an unparsable
JSON body, or a nonzero `code` field yield -ebadmsg; the `code` accessor's
error is propagated; only status 200 with a parsed body and code 0 returns 0. -/
def do_recv_http_response (w : HttpResponseWire) : Int :=
  match w.recv with
  | .error e => e
  | .ok _ =>
    if ¬ w.has_status_line then -ebadmsg
    else
      match w.status_parse with
      | none => -ebadmsg
      | some status =>
        if ¬ w.has_body_sep then -ebadmsg
        else if status = 403 then -ebadmsg
        else if status = 200 then
          if ¬ w.body.parses then -ebadmsg
          else
            match cfs_json_get_u32_code w.body with
            | .error e => e
            | .ok c => if c ≠ 0 then -ebadmsg else 0
        else -ebadmsg

/-- READDIR_NUM, the batch size of the readdir loop (cfs_fs.c:653). -/
def READDIR_NUM : Nat := 1024

/-- struct cfs_packet_dentry fields used by cfs_iterate_dir; `name` is an
abstract token for the entry's name string. -/
structure cfs_packet_dentry where
  name : Nat
  ino : Nat
  dtype : Nat
deriving DecidableEq, Repr

/-- struct cfs_file_info fields used by cfs_iterate_dir: completion flag,
readdir marker, the current dentry batch and the emission offset within it. -/
structure cfs_file_info where
  done : Bool
  marker : Option Nat
  denties : List cfs_packet_dentry
  denties_offset : Nat
deriving DecidableEq, Repr

/-- Oracles for one cfs_iterate_dir invocation, indexed by loop round or
emission count: dir_emit_dots, dir_emit per emitted entry, kstrdup of the
marker, u64_array_init of the inode vector, cfs_meta_readdir, and
cfs_meta_batch_get (whose payload only refreshes inode caches). -/
structure IterDirEnv where
  emit_dots : Bool
  emit : Nat → Bool
  marker_ok : Nat → Bool
  ino_vec_ok : Nat → Bool
  readdir : Nat → Except Int (List cfs_packet_dentry)
  batch_get : Nat → Except Int Unit

/-- Outcome of cfs_iterate_dir: `ret` is the value returned to the VFS,
`log_err` the internal error that reaches the out: label's debug log. -/
structure IterDirOut where
  ret : Int
  log_err : Int
  cfi : cfs_file_info
deriving DecidableEq, Repr

/-- dir_emit loop over a dentry batch: starting at `offset` into the batch with
`emitted` entries emitted so far, returns the final offset, the new emission
count, and whether the whole batch was emitted (a refused dir_emit stops). -/
def iter_emit (env : IterDirEnv) : Nat → Nat → List cfs_packet_dentry → Nat × Nat × Bool
  | offset, emitted, [] => (offset, emitted, true)
  | offset, emitted, _ :: rest =>
    if env.emit emitted then iter_emit env (offset + 1) (emitted + 1) rest
    else (offset, emitted, false)

/-- The while(!done) loop of cfs_iterate_dir (cfs_fs.c:712-789), fuelled
(`none` = fuel ran out): refresh the marker from the last dentry of the
previous batch (kstrdup failure logs -enomem and returns 0), fetch the next
batch (a readdir error logs and returns 0; fewer than READDIR_NUM entries set
done), build the inode vector and batch-fetch inode info (failures log and
return 0), then emit the batch (a refused dir_emit returns 0 mid-batch).
Every exit returns 0 to the caller. -/
def iter_dir_loop (env : IterDirEnv) : Nat → Nat → Nat → cfs_file_info → Option IterDirOut
  | 0, _, _, _ => none
  | fuel+1, round, emitted, cfi =>
    if cfi.done then some ⟨0, 0, cfi⟩
    else
      match (if cfi.denties.length > 0 then
               (if env.marker_ok round then
                  Except.ok { cfi with
                              marker := (cfi.denties.getLast?).map (·.name)
                              denties := [] }
                else Except.error (-enomem))
             else Except.ok cfi : Except Int cfs_file_info) with
      | .error e => some ⟨0, e, cfi⟩
      | .ok cfi₁ =>
        match env.readdir round with
        | .error e => some ⟨0, e, cfi₁⟩
        | .ok l =>
          let cfi₂ := { cfi₁ with
                        denties := l
                        done := if l.length < READDIR_NUM then true else cfi₁.done }
          if ¬ env.ino_vec_ok round then some ⟨0, -enomem, cfi₂⟩
          else
            match env.batch_get round with
            | .error e => some ⟨0, e, cfi₂⟩
            | .ok _ =>
              let r := iter_emit env 0 emitted cfi₂.denties
              let cfi₃ := { cfi₂ with denties_offset := r.1 }
              if r.2.2 then iter_dir_loop env fuel (round + 1) r.2.1 cfi₃
              else some ⟨0, 0, cfi₃⟩

/-- cfs_iterate_dir (cfs_fs.c:655-800): emit dot entries, emit the dentries
left over from the previous call, then run the readdir loop; every terminating
path returns 0 to the VFS whatever internal errors occurred. -/
def cfs_iterate_dir (env : IterDirEnv) (fuel : Nat) (cfi : cfs_file_info) :
    Option IterDirOut :=
  if ¬ env.emit_dots then some ⟨0, 0, cfi⟩
  else
    let r := iter_emit env cfi.denties_offset 0 (cfi.denties.drop cfi.denties_offset)
    let cfi₁ := { cfi with denties_offset := r.1 }
    if ¬ r.2.2 then some ⟨0, 0, cfi₁⟩
    else iter_dir_loop env fuel 0 r.2.1 cfi₁

theorem writer_tx_go_spec (send : cfs_packet → Int) (l : List cfs_packet) :
    ∀ (st : WriterTxState) (cnt : Nat),
    (writer_tx_go send l st cnt).tx_packets = st.tx_packets ∧
    (writer_tx_go send l st cnt).rx_packets = st.rx_packets ++ l ∧
    (writer_tx_go send l st cnt).rx_inflight = st.rx_inflight + l.length ∧
    (writer_tx_go send l st cnt).tx_inflight = st.tx_inflight - ((cnt : Int) + l.length) ∧
    (writer_tx_go send l st cnt).rx_sched = st.rx_sched + l.length := by
  induction l with
  | nil => intro st cnt; simp [writer_tx_go]
  | cons p rest ih =>
    intro st cnt
    obtain ⟨h1, h2, h3, h4, h5⟩ :=
      ih { st with
           flag_error := (extent_writer_tx_step (send p) st.flag_error st.flag_recover).1
           flag_recover := (extent_writer_tx_step (send p) st.flag_error st.flag_recover).2.1
           rx_packets := st.rx_packets ++ [p]
           rx_inflight := st.rx_inflight + 1
           rx_sched := st.rx_sched + 1 } (cnt + 1)
    refine ⟨?_, ?_, ?_, ?_, ?_⟩ <;>
      simp only [writer_tx_go, h1, h2, h3, h4, h5, List.length_cons, List.append_assoc,
        List.singleton_append] <;> push_cast <;> omega

/-- Claim C6: in the extent writer's tx task every dequeued packet is moved to
the rx queue (in order), rx_inflight is incremented and the rx task scheduled
once per packet regardless of flags or send outcome, and tx_inflight drops by
exactly the number of packets dequeued. -/
theorem c6_tx_moves_every_packet (send : cfs_packet → Int) (st : WriterTxState) :
    (extent_writer_tx_work_cb send st).tx_packets = [] ∧
    (extent_writer_tx_work_cb send st).rx_packets = st.rx_packets ++ st.tx_packets ∧
    (extent_writer_tx_work_cb send st).rx_inflight =
      st.rx_inflight + st.tx_packets.length ∧
    (extent_writer_tx_work_cb send st).tx_inflight =
      st.tx_inflight - st.tx_packets.length ∧
    (extent_writer_tx_work_cb send st).rx_sched = st.rx_sched + st.tx_packets.length := by
  unfold extent_writer_tx_work_cb
  obtain ⟨h1, h2, h3, h4, h5⟩ :=
    writer_tx_go_spec send st.tx_packets { st with tx_packets := [] } 0
  refine ⟨h1, by simpa using h2, by simpa using h3, by simp [h4], by simpa using h5⟩

/-- Claim C3 counterexample: a send failing with -ENOMEM in the WRITER's tx
task sets RECOVER, not ERROR — the claimed OutOfMemory → ERROR classification
does not hold for the writer. -/
theorem c3_counterexample :
    extent_writer_tx_step (-enomem) false false = (false, true, true) ∧
    ¬ (extent_writer_tx_step (-enomem) false false).1 = true := by
  constructor <;> decide

/-- Claim C3 (amended): in the extent writer's tx task every send failure,
OutOfMemory included, sets the RECOVER flag and never ERROR; the
OutOfMemory → ERROR / other error → RECOVER classification is the one
implemented by the extent READER's tx task. -/
theorem c3_send_error_classification (ret : Int) (h : ret < 0) :
    ((extent_writer_tx_step ret false false).1 = false ∧
     (extent_writer_tx_step ret false false).2.1 = true) ∧
    (ret = -enomem →
      (extent_reader_tx_step ret false false).1 = true ∧
      (extent_reader_tx_step ret false false).2.1 = false) ∧
    (ret ≠ -enomem →
      (extent_reader_tx_step ret false false).1 = false ∧
      (extent_reader_tx_step ret false false).2.1 = true) := by
  refine ⟨?_, ?_, ?_⟩
  · simp [extent_writer_tx_step, h]
  · intro he; simp [extent_reader_tx_step, he]
  · intro he; simp [extent_reader_tx_step, he, h]

/-- Claim C3 witness: the amended classification evaluated at the concrete
send error -ENOMEM. -/
theorem c3_send_error_classification_witness :
    ((extent_writer_tx_step (-enomem) false false).1 = false ∧
     (extent_writer_tx_step (-enomem) false false).2.1 = true) ∧
    ((-enomem : Int) = -enomem →
      (extent_reader_tx_step (-enomem) false false).1 = true ∧
      (extent_reader_tx_step (-enomem) false false).2.1 = false) ∧
    ((-enomem : Int) ≠ -enomem →
      (extent_reader_tx_step (-enomem) false false).1 = false ∧
      (extent_reader_tx_step (-enomem) false false).2.1 = true) :=
  c3_send_error_classification (-enomem) (by decide)

/-- Claim C4 counterexample: a dirty writer whose ext_size is zero makes
cfs_extent_writer_flush return success WITHOUT appending to the extent cache,
without calling the meta client, and without clearing the dirty flag —
contradicting the claim that every dirty flush appends the descriptor, calls
append_extent and clears dirty. -/
theorem c4_counterexample :
    (⟨true, 0, 0, 0, 1, 0, 2⟩ : FlushWriterState).dirty = true ∧
    (cfs_extent_writer_flush ⟨Except.ok [], 0⟩ ⟨true, 0, 0, 0, 1, 0, 2⟩).ret = 0 ∧
    (cfs_extent_writer_flush ⟨Except.ok [], 0⟩ ⟨true, 0, 0, 0, 1, 0, 2⟩).cache_call = none ∧
    (cfs_extent_writer_flush ⟨Except.ok [], 0⟩ ⟨true, 0, 0, 0, 1, 0, 2⟩).meta_call = none ∧
    (cfs_extent_writer_flush ⟨Except.ok [], 0⟩ ⟨true, 0, 0, 0, 1, 0, 2⟩).w.dirty = true := by
  refine ⟨rfl, rfl, rfl, rfl, rfl⟩

/-- Claim C4 (amended): flush on a non-dirty writer returns success untouched
and without waiting; on a dirty writer it first waits until both inflight
counters are zero, then returns success immediately when ext_size is zero
(no meta traffic, dirty kept), and otherwise appends the descriptor
(file_offset, partition id, extent id, offset 0, ext_size) to the extent
cache with sync=true, calls meta append_extent with the collected discards,
and only on meta success removes the discards and clears dirty; given the
pipeline invariant that a clean writer has no inflight packets, a successful
flush always ends with both counters zero. -/
theorem c4_flush_spec (env : FlushEnv) (w : FlushWriterState)
    (hinv : w.dirty = false → w.tx_inflight = 0 ∧ w.rx_inflight = 0) :
    (w.dirty = false →
      cfs_extent_writer_flush env w = ⟨0, w, false, none, none, none⟩) ∧
    (w.dirty = true →
      (cfs_extent_writer_flush env w).w.tx_inflight = 0 ∧
      (cfs_extent_writer_flush env w).w.rx_inflight = 0 ∧
      (cfs_extent_writer_flush env w).waited = true) ∧
    (w.dirty = true → w.ext_size = 0 →
      (cfs_extent_writer_flush env w).ret = 0 ∧
      (cfs_extent_writer_flush env w).cache_call = none ∧
      (cfs_extent_writer_flush env w).meta_call = none ∧
      (cfs_extent_writer_flush env w).w.dirty = true) ∧
    (w.dirty = true → w.ext_size ≠ 0 →
      (cfs_extent_writer_flush env w).cache_call =
        some (⟨w.file_offset, w.dp_id, w.ext_id, 0, w.ext_size⟩, true) ∧
      (∀ e, env.cache_append = .error e →
        (cfs_extent_writer_flush env w).ret = e ∧
        (cfs_extent_writer_flush env w).meta_call = none) ∧
      (∀ d, env.cache_append = .ok d →
        (cfs_extent_writer_flush env w).meta_call =
          some (⟨w.file_offset, w.dp_id, w.ext_id, 0, w.ext_size⟩, d) ∧
        (env.meta_ret < 0 →
          (cfs_extent_writer_flush env w).ret = env.meta_ret ∧
          (cfs_extent_writer_flush env w).removed_discards = none ∧
          (cfs_extent_writer_flush env w).w.dirty = true) ∧
        (0 ≤ env.meta_ret →
          (cfs_extent_writer_flush env w).ret = 0 ∧
          (cfs_extent_writer_flush env w).removed_discards = some d ∧
          (cfs_extent_writer_flush env w).w.dirty = false))) ∧
    ((cfs_extent_writer_flush env w).ret = 0 →
      (cfs_extent_writer_flush env w).w.tx_inflight = 0 ∧
      (cfs_extent_writer_flush env w).w.rx_inflight = 0) := by
  refine ⟨?_, ?_, ?_, ?_, ?_⟩
  · intro hd; simp [cfs_extent_writer_flush, hd]
  · intro hd
    by_cases hz : w.ext_size = 0
    · simp [cfs_extent_writer_flush, hd, hz]
    · cases henv : env.cache_append with
      | error e => simp [cfs_extent_writer_flush, hd, hz, henv]
      | ok d =>
        by_cases hm : env.meta_ret < 0 <;>
          simp [cfs_extent_writer_flush, hd, hz, henv, hm]
  · intro hd hz
    simp [cfs_extent_writer_flush, hd, hz]
  · intro hd hz
    refine ⟨?_, ?_, ?_⟩
    · cases henv : env.cache_append with
      | error e => simp [cfs_extent_writer_flush, hd, hz, henv]
      | ok d =>
        by_cases hm : env.meta_ret < 0 <;>
          simp [cfs_extent_writer_flush, hd, hz, henv, hm]
    · intro e he; simp [cfs_extent_writer_flush, hd, hz, he]
    · intro d hdisc
      refine ⟨?_, ?_, ?_⟩
      · by_cases hm : env.meta_ret < 0 <;>
          simp [cfs_extent_writer_flush, hd, hz, hdisc, hm]
      · intro hm; simp [cfs_extent_writer_flush, hd, hz, hdisc, hm]
      · intro hm
        simp [cfs_extent_writer_flush, hd, hz, hdisc, not_lt.mpr hm]
  · intro hret
    by_cases hd : w.dirty
    · by_cases hz : w.ext_size = 0
      · simp [cfs_extent_writer_flush, hd, hz]
      · cases henv : env.cache_append with
        | error e => simp [cfs_extent_writer_flush, hd, hz, henv]
        | ok d =>
          by_cases hm : env.meta_ret < 0 <;>
            simp [cfs_extent_writer_flush, hd, hz, henv, hm]
    · have hd' : w.dirty = false := by simpa using hd
      obtain ⟨h1, h2⟩ := hinv hd'
      simp [cfs_extent_writer_flush, hd', h1, h2]

/-- Claim C4 witness: the amended flush behaviour evaluated on a concrete
dirty writer with two inflight packets, one collected discard, and a
successful meta append. -/
theorem c4_flush_spec_witness :
    (cfs_extent_writer_flush ⟨Except.ok [⟨0, 3, 4, 0, 100⟩], 0⟩
        ⟨true, 2, 1, 4096, 7, 512, 9⟩).meta_call =
      some (⟨4096, 9, 7, 0, 512⟩, [⟨0, 3, 4, 0, 100⟩]) ∧
    (cfs_extent_writer_flush ⟨Except.ok [⟨0, 3, 4, 0, 100⟩], 0⟩
        ⟨true, 2, 1, 4096, 7, 512, 9⟩).ret = 0 ∧
    (cfs_extent_writer_flush ⟨Except.ok [⟨0, 3, 4, 0, 100⟩], 0⟩
        ⟨true, 2, 1, 4096, 7, 512, 9⟩).removed_discards = some [⟨0, 3, 4, 0, 100⟩] ∧
    (cfs_extent_writer_flush ⟨Except.ok [⟨0, 3, 4, 0, 100⟩], 0⟩
        ⟨true, 2, 1, 4096, 7, 512, 9⟩).w.dirty = false ∧
    (cfs_extent_writer_flush ⟨Except.ok [⟨0, 3, 4, 0, 100⟩], 0⟩
        ⟨true, 2, 1, 4096, 7, 512, 9⟩).w.tx_inflight = 0 := by
  have h := c4_flush_spec ⟨Except.ok [⟨0, 3, 4, 0, 100⟩], 0⟩
    ⟨true, 2, 1, 4096, 7, 512, 9⟩ (by intro h; cases h)
  obtain ⟨-, h2, -, h4, -⟩ := h
  obtain ⟨hcache, -, hok⟩ := h4 rfl (by decide)
  obtain ⟨hmeta, -, hsucc⟩ := hok [⟨0, 3, 4, 0, 100⟩] rfl
  obtain ⟨hret, hrem, hdirty⟩ := hsucc (by decide)
  exact ⟨hmeta, hret, hrem, hdirty, (h2 rfl).1⟩

/-- Claim C5: writer recovery that must allocate (no recovery writer yet) with
nr_writers already at or above max_writers fails with -EPERM, stores -EPERM in
the packet's error slot, and allocates neither an extent nor a writer (the
stream, its writer list and its counters are untouched). -/
theorem c5_recover_at_capacity (retry_max : Nat) (envs : Nat → RecoverEnv)
    (fuel : Nat) (es : cfs_extent_stream) (packet : cfs_packet)
    (hfuel : 1 ≤ fuel) (hcap : es.nr_writers ≥ es.max_writers) :
    (extent_writer_recover retry_max envs fuel es none packet).ret = some (-eperm) ∧
    (extent_writer_recover retry_max envs fuel es none packet).st.es = es ∧
    (extent_writer_recover retry_max envs fuel es none packet).st.packet =
      { packet with error := -eperm } ∧
    (extent_writer_recover retry_max envs fuel es none packet).allocated = [] ∧
    (extent_writer_recover retry_max envs fuel es none packet).issues = [] := by
  obtain ⟨f, rfl⟩ : ∃ f, fuel = f + 1 := ⟨fuel - 1, by omega⟩
  simp [extent_writer_recover, extent_writer_recover_loop, recover_alloc, hcap,
    setPacketError]

/-- Claim C5 witness: the capacity check evaluated on a concrete saturated
stream. -/
theorem c5_recover_at_capacity_witness :
    (extent_writer_recover 3 (fun _ => ⟨Except.ok (⟨9, 2, 101, 202, 0, 3⟩, 7), true,
        Except.ok (), 0, 0⟩) 1 ⟨2, 2, [], 0, false⟩ none
        ⟨⟨0, 0, 0, 4096, 1024, 0, 77, none⟩, 0, 0, 0, none⟩).ret = some (-eperm) ∧
    (extent_writer_recover 3 (fun _ => ⟨Except.ok (⟨9, 2, 101, 202, 0, 3⟩, 7), true,
        Except.ok (), 0, 0⟩) 1 ⟨2, 2, [], 0, false⟩ none
        ⟨⟨0, 0, 0, 4096, 1024, 0, 77, none⟩, 0, 0, 0, none⟩).st.es =
      ⟨2, 2, [], 0, false⟩ ∧
    (extent_writer_recover 3 (fun _ => ⟨Except.ok (⟨9, 2, 101, 202, 0, 3⟩, 7), true,
        Except.ok (), 0, 0⟩) 1 ⟨2, 2, [], 0, false⟩ none
        ⟨⟨0, 0, 0, 4096, 1024, 0, 77, none⟩, 0, 0, 0, none⟩).st.packet =
      ⟨⟨0, 0, 0, 4096, 1024, 0, 77, none⟩, 0, -eperm, 0, none⟩ ∧
    (extent_writer_recover 3 (fun _ => ⟨Except.ok (⟨9, 2, 101, 202, 0, 3⟩, 7), true,
        Except.ok (), 0, 0⟩) 1 ⟨2, 2, [], 0, false⟩ none
        ⟨⟨0, 0, 0, 4096, 1024, 0, 77, none⟩, 0, 0, 0, none⟩).allocated = [] ∧
    (extent_writer_recover 3 (fun _ => ⟨Except.ok (⟨9, 2, 101, 202, 0, 3⟩, 7), true,
        Except.ok (), 0, 0⟩) 1 ⟨2, 2, [], 0, false⟩ none
        ⟨⟨0, 0, 0, 4096, 1024, 0, 77, none⟩, 0, 0, 0, none⟩).issues = [] :=
  c5_recover_at_capacity 3 _ 1 _ _ (by decide) (by decide)

/-- Claim C8: a master HTTP response is accepted (return 0) exactly when the
receive loop succeeds, the buffer holds a status line parsing to 200 and a
header/body separator, the body parses as JSON and its `code` field is 0;
a 403 status, any other status, an unparsable body, a missing `code` field or
a nonzero `code` all yield -EBADMSG. Receive-loop errors are negative. -/
theorem c8_http_response_accept (w : HttpResponseWire)
    (herr : ∀ e, w.recv = .error e → e < 0) :
    (do_recv_http_response w = 0 ↔
      w.recv = .ok () ∧ w.has_status_line = true ∧ w.status_parse = some 200 ∧
      w.has_body_sep = true ∧ w.body.parses = true ∧ w.body.code = some 0) ∧
    (w.recv = .ok () → w.has_status_line = true → w.has_body_sep = true →
      ∀ s, w.status_parse = some s →
      (s = 403 → do_recv_http_response w = -ebadmsg) ∧
      (s ≠ 403 → s ≠ 200 → do_recv_http_response w = -ebadmsg) ∧
      (s = 200 → w.body.parses = false → do_recv_http_response w = -ebadmsg) ∧
      (s = 200 → w.body.parses = true → w.body.code = none →
        do_recv_http_response w = -ebadmsg) ∧
      (s = 200 → w.body.parses = true → ∀ c, w.body.code = some c → c ≠ 0 →
        do_recv_http_response w = -ebadmsg)) := by
  constructor
  · constructor
    · intro h0
      rw [do_recv_http_response] at h0
      split at h0
      · rename_i e heq
        have he := herr e heq
        omega
      · rename_i u heq
        cases u
        split at h0
        · exact absurd h0 (by decide)
        · rename_i hline
          split at h0
          · exact absurd h0 (by decide)
          · rename_i s hst
            split at h0
            · exact absurd h0 (by decide)
            · rename_i hsep
              split at h0
              · exact absurd h0 (by decide)
              · rename_i h403
                split at h0
                · rename_i h200
                  split at h0
                  · exact absurd h0 (by decide)
                  · rename_i hp
                    split at h0
                    · rename_i e hjson
                      rw [cfs_json_get_u32_code] at hjson
                      cases hbc : w.body.code with
                      | none =>
                        rw [hbc] at hjson
                        have : e = -ebadmsg := by
                          cases hjson
                          rfl
                        rw [this] at h0
                        exact absurd h0 (by decide)
                      | some c => rw [hbc] at hjson; cases hjson
                    · rename_i c hjson
                      split at h0
                      · exact absurd h0 (by decide)
                      · rename_i hcz
                        have hc0 : c = 0 := by
                          by_cases h : c = 0
                          · exact h
                          · exact absurd h hcz
                        rw [cfs_json_get_u32_code] at hjson
                        cases hbc : w.body.code with
                        | none => rw [hbc] at hjson; cases hjson
                        | some c' =>
                          rw [hbc] at hjson
                          have hcc : c' = c := by
                            cases hjson
                            rfl
                          refine ⟨heq, ?_, ?_, ?_, ?_, ?_⟩
                          · by_cases h : w.has_status_line = true
                            · exact h
                            · exact absurd h hline
                          · rw [hst, h200]
                          · by_cases h : w.has_body_sep = true
                            · exact h
                            · exact absurd h hsep
                          · by_cases h : w.body.parses = true
                            · exact h
                            · exact absurd h hp
                          · rw [hcc, hc0]
                · exact absurd h0 (by decide)
    · rintro ⟨h1, h2, h3, h4, h5, h6⟩
      rw [do_recv_http_response, h1]
      simp [h2, h3, h4, h5, cfs_json_get_u32_code, h6]
  · intro h1 h2 h4 s h3
    refine ⟨?_, ?_, ?_, ?_, ?_⟩
    · intro hs
      rw [do_recv_http_response, h1]
      simp [h2, h3, h4, hs]
    · intro hs1 hs2
      rw [do_recv_http_response, h1]
      simp [h2, h3, h4, hs1, hs2]
    · intro hs hp
      rw [do_recv_http_response, h1]
      simp [h2, h3, h4, hs, hp]
    · intro hs hp hc
      rw [do_recv_http_response, h1]
      simp [h2, h3, h4, hs, hp, cfs_json_get_u32_code, hc]
    · intro hs hp c hc hcz
      rw [do_recv_http_response, h1]
      simp [h2, h3, h4, hs, hp, cfs_json_get_u32_code, hc, hcz]

/-- Claim C8 witness: the acceptance criterion evaluated on a concrete 200
response with code 0 and on a concrete 403 response. -/
theorem c8_http_response_accept_witness :
    do_recv_http_response ⟨.ok (), true, some 200, true, ⟨true, some 0⟩⟩ = 0 ∧
    do_recv_http_response ⟨.ok (), true, some 403, true, ⟨true, some 0⟩⟩ = -ebadmsg := by
  have h1 := c8_http_response_accept ⟨.ok (), true, some 200, true, ⟨true, some 0⟩⟩
    (fun e h => nomatch h)
  have h2 := c8_http_response_accept ⟨.ok (), true, some 403, true, ⟨true, some 0⟩⟩
    (fun e h => nomatch h)
  exact ⟨h1.1.mpr ⟨rfl, rfl, rfl, rfl, rfl, rfl⟩, (h2.2 rfl rfl rfl 403 rfl).1 rfl⟩

/-- Claim C7: on any receive failure or non-Ok reply the extent reader sets its
RECOVER flag and routes the packet to recovery; recovery allocates a recovery
reader only when none exists, targeting replica (host_index + 1) mod the
partition's member count, performs exactly one do_extent_request_retry probe,
and on a non-negative probe result returns 0 and records the returned value as
the partition's leader index. -/
theorem c7_reader_recovery (env : ReaderRxEnv) (r : cfs_extent_reader)
    (recover0 : Option cfs_extent_reader) (packet : cfs_packet) :
    (r.flag_error = false → r.flag_recover = false →
      (env.recv_ret < 0 ∨ env.recv_result_code ≠ cfsStatusOk) →
      (extent_reader_rx_packet env r recover0 packet).recover_called = true ∧
      (extent_reader_rx_packet env r recover0 packet).recover_out =
        some (extent_reader_recover env.recover_env { r with flag_recover := true }
          recover0 { packet with reply_result_code := env.recv_result_code })) ∧
    (recover0 = none → env.recover_env.sock = .ok () →
      (extent_reader_recover env.recover_env r none packet).allocated = true ∧
      (extent_reader_recover env.recover_env r none packet).retry_calls = 1 ∧
      (0 ≤ env.recover_env.retry_ret →
        (extent_reader_recover env.recover_env r none packet).ret = 0 ∧
        (extent_reader_recover env.recover_env r none packet).recover =
          some { dp := { r.dp with leader_idx := env.recover_env.retry_ret.toNat }
                 host_idx := (r.host_idx + 1) % r.dp.members_num
                 ext_id := r.ext_id
                 flag_error := false
                 flag_recover := false })) ∧
    (∀ rec, recover0 = some rec →
      (extent_reader_recover env.recover_env r (some rec) packet).allocated = false ∧
      (extent_reader_recover env.recover_env r (some rec) packet).retry_calls = 1) := by
  refine ⟨?_, ?_, ?_⟩
  · intro he hr hfail
    have hcond : (env.recv_ret < 0 ∨ ¬ env.recv_result_code = cfsStatusOk) := hfail
    simp [extent_reader_rx_packet, he, hr, hcond]
  · intro h0 hsock
    have hnew : cfs_extent_reader_new r.dp (r.host_idx + 1) r.ext_id env.recover_env.sock =
        .ok { dp := r.dp, host_idx := (r.host_idx + 1) % r.dp.members_num,
              ext_id := r.ext_id, flag_error := false, flag_recover := false } := by
      rw [cfs_extent_reader_new.eq_def, hsock]
    refine ⟨?_, ?_, ?_⟩
    · simp [extent_reader_recover, hnew, reader_recover_retry]
      split <;> simp
    · simp [extent_reader_recover, hnew, reader_recover_retry]
      split <;> simp
    · intro hret
      have hneg : ¬ env.recover_env.retry_ret < 0 := not_lt.mpr hret
      simp [extent_reader_recover, hnew, reader_recover_retry, hneg]
  · intro rec h0
    simp [extent_reader_recover, reader_recover_retry]
    split <;> simp

/-- Claim C7 witness: the reader recovery path evaluated on a concrete reader
at host 1 of a 3-replica partition receiving a non-Ok reply, with a probe
returning leader index 2. -/
theorem c7_reader_recovery_witness :
    (extent_reader_rx_packet ⟨0, 7, ⟨Except.ok (), 2⟩⟩
        ⟨⟨9, 2, 101, 202, 0, 3⟩, 1, 55, false, false⟩ none
        ⟨⟨0, 0, 0, 0, 0, 0, 77, none⟩, 0, 0, 0, none⟩).recover_called = true ∧
    (extent_reader_recover ⟨Except.ok (), 2⟩
        ⟨⟨9, 2, 101, 202, 0, 3⟩, 1, 55, false, false⟩ none
        ⟨⟨0, 0, 0, 0, 0, 0, 77, none⟩, 0, 0, 0, none⟩).allocated = true ∧
    (extent_reader_recover ⟨Except.ok (), 2⟩
        ⟨⟨9, 2, 101, 202, 0, 3⟩, 1, 55, false, false⟩ none
        ⟨⟨0, 0, 0, 0, 0, 0, 77, none⟩, 0, 0, 0, none⟩).recover =
      some ⟨⟨9, 2, 101, 202, 2, 3⟩, 2, 55, false, false⟩ := by
  have h := c7_reader_recovery ⟨0, 7, ⟨Except.ok (), 2⟩⟩
    ⟨⟨9, 2, 101, 202, 0, 3⟩, 1, 55, false, false⟩ none
    ⟨⟨0, 0, 0, 0, 0, 0, 77, none⟩, 0, 0, 0, none⟩
  refine ⟨(h.1 rfl rfl (Or.inr (by decide))).1, (h.2.1 rfl rfl).1, ?_⟩
  have := (h.2.1 rfl rfl).2.2 (by decide)
  exact this.2

theorem iter_dir_loop_ret_zero (env : IterDirEnv) :
    ∀ (fuel round emitted : Nat) (cfi : cfs_file_info) (o : IterDirOut),
      iter_dir_loop env fuel round emitted cfi = some o → o.ret = 0 := by
  intro fuel
  induction fuel with
  | zero => intro round emitted cfi o h; exact absurd h (by simp [iter_dir_loop])
  | succ fuel ih =>
    intro round emitted cfi o h
    rw [iter_dir_loop] at h
    simp only [] at h
    repeat' split at h
    all_goals
      first
      | exact ih _ _ _ _ h
      | (simp only [Option.some.injEq] at h; subst h; rfl)

/-- Claim C10: the directory iteration always returns 0 to its caller on every
terminating execution, even when the metadata readdir, the batched inode
fetch, the inode-vector allocation or the marker allocation fails
mid-iteration; such failures end the iteration but are never surfaced as the
operation's return value. -/
theorem c10_iterate_dir_returns_zero (env : IterDirEnv) (fuel : Nat)
    (cfi : cfs_file_info) (o : IterDirOut)
    (h : cfs_iterate_dir env fuel cfi = some o) : o.ret = 0 := by
  rw [cfs_iterate_dir] at h
  simp only [] at h
  repeat' split at h
  all_goals
    first
    | exact iter_dir_loop_ret_zero env _ _ _ _ _ h
    | (simp only [Option.some.injEq] at h; subst h; rfl)

/-- Claim C10 witness: a run whose metadata readdir fails with -EIO still
returns 0 while the internal error is only logged. -/
theorem c10_iterate_dir_returns_zero_witness :
    cfs_iterate_dir
        ⟨true, fun _ => true, fun _ => true, fun _ => true,
         fun _ => Except.error (-eio), fun _ => Except.ok ()⟩ 1
        ⟨false, none, [], 0⟩ =
      some ⟨0, -eio, ⟨false, none, [], 0⟩⟩ ∧
    (⟨0, -eio, ⟨false, none, [], 0⟩⟩ : IterDirOut).ret = 0 ∧
    (⟨0, -eio, ⟨false, none, [], 0⟩⟩ : IterDirOut).log_err < 0 := by
  refine ⟨rfl, ?_, by decide⟩
  exact c10_iterate_dir_returns_zero
    ⟨true, fun _ => true, fun _ => true, fun _ => true,
     fun _ => Except.error (-eio), fun _ => Except.ok ()⟩ 1
    ⟨false, none, [], 0⟩ ⟨0, -eio, ⟨false, none, [], 0⟩⟩ rfl

theorem markWriterError_map_wid (l : List cfs_extent_writer) (wid : Nat) :
    (markWriterError l wid).map (fun x => x.wid) = l.map (fun x => x.wid) := by
  induction l with
  | nil => rfl
  | cons x xs ih =>
    show ((if x.wid = wid then { x with flag_error := true } else x) ::
        markWriterError xs wid).map (fun y => y.wid) = x.wid :: xs.map (fun y => y.wid)
    rw [List.map_cons]
    have h1 : (if x.wid = wid then { x with flag_error := true } else x).wid = x.wid := by
      split <;> rfl
    rw [h1, ih]

theorem recover_alloc_error_spec (env : RecoverEnv) (st : RecoverState) (e : Int)
    (st' : RecoverState) (h : recover_alloc env st = .error (e, st')) :
    st'.es = st.es ∧ st'.wrecover = st.wrecover ∧ st'.fresh = st.fresh ∧
    st'.packet = { st.packet with error := e } := by
  rw [recover_alloc.eq_def] at h
  repeat' split at h
  all_goals
    first
    | (simp only [Except.error.injEq, Prod.mk.injEq, setPacketError] at h
       obtain ⟨rfl, rfl⟩ := h
       exact ⟨rfl, rfl, rfl, rfl⟩)
    | exact absurd h (by simp)

theorem recover_alloc_ok_spec (env : RecoverEnv) (st st₁ : RecoverState)
    (w : cfs_extent_writer) (alloc : List cfs_extent_writer)
    (h : recover_alloc env st = .ok (st₁, w, alloc)) :
    st₁.packet = st.packet ∧
    st₁.es.enable_rdma = st.es.enable_rdma ∧
    st₁.es.max_writers = st.es.max_writers ∧
    st₁.wrecover = some w ∧
    st₁.es.nr_writers = st.es.nr_writers + alloc.length ∧
    st₁.es.writers = st.es.writers ++ alloc ∧
    alloc.length ≤ 1 ∧
    ((st.wrecover = some w ∧ st₁ = st ∧ alloc = []) ∨
     (st.wrecover = none ∧ alloc = [w] ∧ st₁.fresh = true ∧
      w.file_offset = st.packet.hdr.kernel_offset ∧ w.flag_error = false ∧
      w.flag_recover = false)) := by
  rw [recover_alloc.eq_def] at h
  split at h
  · rename_i w' heq
    simp only [Except.ok.injEq, Prod.mk.injEq] at h
    obtain ⟨rfl, rfl, rfl⟩ := h
    exact ⟨rfl, rfl, rfl, heq, by simp, by simp, by simp, Or.inl ⟨heq, rfl, rfl⟩⟩
  · rename_i heq
    split at h
    · exact absurd h (by simp)
    · split at h
      · exact absurd h (by simp)
      · rename_i dp ext_id heq2
        split at h
        · simp only [Except.ok.injEq, Prod.mk.injEq] at h
          obtain ⟨rfl, rfl, rfl⟩ := h
          refine ⟨rfl, rfl, rfl, rfl, by simp, rfl, by simp,
            Or.inr ⟨heq, rfl, rfl, rfl, rfl, rfl⟩⟩
        · exact absurd h (by simp)

theorem recover_loop_retry_count (retry_max : Nat) (envs : Nat → RecoverEnv) :
    ∀ (fuel i : Nat) (st : RecoverState),
      (extent_writer_recover_loop retry_max envs fuel i st).st.packet.retry_count =
        st.packet.retry_count +
          (extent_writer_recover_loop retry_max envs fuel i st).issues.length := by
  intro fuel
  induction fuel with
  | zero => intro i st; simp [extent_writer_recover_loop]
  | succ fuel ih =>
    intro i st
    simp only [extent_writer_recover_loop]
    split
    · rename_i e st' halloc
      have hs := recover_alloc_error_spec (envs i) st e st' halloc
      simp [hs.2.2.2]
    · rename_i st₁ w alloc halloc
      have hs := recover_alloc_ok_spec (envs i) st st₁ w alloc halloc
      split
      · rename_i e harg
        simp [hs.1]
      · rename_i u harg
        split
        · split
          · have hrec := ih (i+1) (recover_failed_st (envs i) st₁ w)
            have hst2 : (recover_failed_st (envs i) st₁ w).packet.retry_count =
                st.packet.retry_count + 1 := by
              simp [recover_failed_st, recover_pkt, hs.1]
            simp only [List.length_cons]
            omega
          · simp [recover_failed_st, recover_pkt, hs.1]
        · simp [recover_pkt, hs.1]

theorem recover_loop_issues_le (retry_max : Nat) (envs : Nat → RecoverEnv) :
    ∀ (fuel i : Nat) (st : RecoverState),
      st.packet.retry_count ≤ retry_max →
      (extent_writer_recover_loop retry_max envs fuel i st).issues.length +
        st.packet.retry_count ≤ retry_max + 1 := by
  intro fuel
  induction fuel with
  | zero => intro i st hrc; simp [extent_writer_recover_loop]; omega
  | succ fuel ih =>
    intro i st hrc
    simp only [extent_writer_recover_loop]
    split
    · rename_i e st' halloc
      simp
      omega
    · rename_i st₁ w alloc halloc
      have hs := recover_alloc_ok_spec (envs i) st st₁ w alloc halloc
      split
      · rename_i e harg
        simp
        omega
      · rename_i u harg
        split
        · split
          · rename_i hfail hret
            have hst2 : (recover_failed_st (envs i) st₁ w).packet.retry_count =
                st.packet.retry_count + 1 := by
              simp [recover_failed_st, recover_pkt, hs.1]
            have hrc2 : (recover_failed_st (envs i) st₁ w).packet.retry_count ≤
                retry_max := by
              rw [hst2]
              rw [hs.1] at hret
              omega
            have hrec := ih (i+1) (recover_failed_st (envs i) st₁ w) hrc2
            simp only [List.length_cons]
            omega
          · simp
            omega
        · simp
          omega

theorem recover_loop_terminates (retry_max : Nat) (envs : Nat → RecoverEnv) :
    ∀ (fuel i : Nat) (st : RecoverState),
      retry_max + 1 ≤ fuel + st.packet.retry_count → 1 ≤ fuel →
      ((extent_writer_recover_loop retry_max envs fuel i st).ret).isSome = true := by
  intro fuel
  induction fuel with
  | zero => intro i st hfuel h1; omega
  | succ fuel ih =>
    intro i st hfuel h1
    simp only [extent_writer_recover_loop]
    split
    · simp
    · rename_i st₁ w alloc halloc
      have hs := recover_alloc_ok_spec (envs i) st st₁ w alloc halloc
      split
      · simp
      · split
        · split
          · rename_i hfail hret
            have hst2 : (recover_failed_st (envs i) st₁ w).packet.retry_count =
                st.packet.retry_count + 1 := by
              simp [recover_failed_st, recover_pkt, hs.1]
            rw [hs.1] at hret
            exact ih (i+1) (recover_failed_st (envs i) st₁ w) (by omega) (by omega)
          · simp
        · simp

/-- An iteration environment in which every allocation-side oracle succeeds
(extent id allocation, writer socket creation, request-argument attachment). -/
def recoverEnvUp (e : RecoverEnv) : Prop :=
  (∃ v, e.id_new = .ok v) ∧ e.sock_ok = true ∧ e.set_arg = .ok ()

/-- An iteration environment whose synchronous re-issue fails (negative return
or non-OK reply result code). -/
def recoverEnvFail (e : RecoverEnv) : Prop :=
  e.req_ret < 0 ∨ e.req_result_code ≠ cfsStatusOk

theorem recover_alloc_up (env : RecoverEnv) (st : RecoverState)
    (hup : recoverEnvUp env)
    (hcap : st.es.nr_writers < st.es.max_writers) :
    ∃ st₁ w alloc, recover_alloc env st = .ok (st₁, w, alloc) := by
  obtain ⟨⟨⟨dp, eid⟩, hid⟩, hsock, harg⟩ := hup
  rw [recover_alloc.eq_def]
  cases hw : st.wrecover with
  | some w => exact ⟨st, w, [], rfl⟩
  | none =>
    have hlt : ¬ st.es.nr_writers ≥ st.es.max_writers := by omega
    refine ⟨{ st with
        es := { st.es with
                writers := st.es.writers ++
                  [cfs_extent_writer_new st.es.next_wid dp st.packet.hdr.kernel_offset eid 0 0]
                nr_writers := st.es.nr_writers + 1
                next_wid := st.es.next_wid + 1 }
        wrecover := some (cfs_extent_writer_new st.es.next_wid dp
          st.packet.hdr.kernel_offset eid 0 0)
        fresh := true },
      cfs_extent_writer_new st.es.next_wid dp st.packet.hdr.kernel_offset eid 0 0,
      [cfs_extent_writer_new st.es.next_wid dp st.packet.hdr.kernel_offset eid 0 0], ?_⟩
    simp [hlt, hid, hsock]

theorem recover_loop_exhausts (retry_max : Nat) (envs : Nat → RecoverEnv)
    (hup : ∀ j, recoverEnvUp (envs j)) (hfail : ∀ j, recoverEnvFail (envs j)) :
    ∀ (fuel i : Nat) (st : RecoverState),
      st.packet.retry_count ≤ retry_max →
      retry_max + 1 ≤ fuel + st.packet.retry_count →
      st.es.nr_writers + retry_max + 1 ≤ st.es.max_writers + st.packet.retry_count →
      (extent_writer_recover_loop retry_max envs fuel i st).ret = some (-eio) ∧
      (extent_writer_recover_loop retry_max envs fuel i st).st.packet.retry_count =
        retry_max + 1 := by
  intro fuel
  induction fuel with
  | zero => intro i st hrc hfuel hcap; omega
  | succ fuel ih =>
    intro i st hrc hfuel hcap
    simp only [extent_writer_recover_loop]
    split
    · rename_i e st' halloc
      obtain ⟨st₁, w, alloc, hok⟩ := recover_alloc_up (envs i) st (hup i) (by omega)
      rw [hok] at halloc
      exact absurd halloc (by simp)
    · rename_i st₁ w alloc halloc
      have hs := recover_alloc_ok_spec (envs i) st st₁ w alloc halloc
      split
      · rename_i e harg
        have := (hup i).2.2
        rw [this] at harg
        exact absurd harg (by simp)
      · split
        · split
          · rename_i hfl hret
            rw [hs.1] at hret
            have hnr : (recover_failed_st (envs i) st₁ w).es.nr_writers =
                st.es.nr_writers + alloc.length := by
              simp [recover_failed_st, hs.2.2.2.2.1]
            have hmax : (recover_failed_st (envs i) st₁ w).es.max_writers =
                st.es.max_writers := by
              simp [recover_failed_st, hs.2.2.1]
            have hrty : (recover_failed_st (envs i) st₁ w).packet.retry_count =
                st.packet.retry_count + 1 := by
              simp [recover_failed_st, recover_pkt, hs.1]
            have hlen := hs.2.2.2.2.2.2.1
            exact ih (i+1) (recover_failed_st (envs i) st₁ w)
              (by omega) (by omega) (by omega)
          · rename_i hfl hret
            rw [hs.1] at hret
            constructor
            · rfl
            · have hrty : (recover_failed_st (envs i) st₁ w).packet.retry_count =
                  st.packet.retry_count + 1 := by
                simp [recover_failed_st, recover_pkt, hs.1]
              simp only [hrty]
              omega
        · rename_i hfl
          exact absurd (hfail i) hfl

/-- What claim C1 asserts of one re-issued request with original kernel offset
`ko` on a stream whose rdma flag is `rdma`: kernel_offset preserved, partition
and extent ids of the recovery writer used, ext_offset = kernel_offset minus
(u64) the recovery writer's file_offset, remaining_followers and the
follower-address argument from the recovery partition, and any writer
allocated by this recovery call sits at file_offset = kernel_offset. -/
def IssueOk (ko : Nat) (rdma : Bool) (e : IssueRecord) : Prop :=
  e.hdr.kernel_offset = ko ∧
  e.hdr.pid = e.w.dp.id ∧
  e.hdr.ext_id = e.w.ext_id ∧
  e.hdr.ext_offset = u64sub ko e.w.file_offset ∧
  e.hdr.remaining_followers = e.w.dp.nr_followers ∧
  e.hdr.arg = some (if rdma then e.w.dp.rdma_follower_addrs
                    else e.w.dp.follower_addrs) ∧
  (e.fresh = true → e.w.file_offset = ko)

theorem recover_issue_ok (env : RecoverEnv) (st st₁ : RecoverState)
    (w : cfs_extent_writer) (alloc : List cfs_extent_writer)
    (halloc : recover_alloc env st = .ok (st₁, w, alloc))
    (hfresh : st.fresh = true → ∀ w', st.wrecover = some w' →
       w'.file_offset = st.packet.hdr.kernel_offset) :
    IssueOk st.packet.hdr.kernel_offset st.es.enable_rdma (recover_issue st₁ w) := by
  have hs := recover_alloc_ok_spec env st st₁ w alloc halloc
  refine ⟨?_, rfl, rfl, ?_, rfl, ?_, ?_⟩
  · simp [recover_issue, recover_hdr2, recover_rewrite_hdr, hs.1]
  · simp [recover_issue, recover_hdr2, recover_rewrite_hdr, hs.1]
  · simp [recover_issue, recover_hdr2, recover_rewrite_hdr, followersArg, hs.2.1]
  · intro hf
    rcases hs.2.2.2.2.2.2.2 with ⟨hw, hst, hal⟩ | ⟨hw, hal, hfr, hfo, _, _⟩
    · subst hst
      exact hfresh hf w hw
    · exact hfo

theorem recover_loop_issues_ok (retry_max : Nat) (envs : Nat → RecoverEnv) :
    ∀ (fuel i : Nat) (st : RecoverState),
      (st.fresh = true → ∀ w, st.wrecover = some w →
        w.file_offset = st.packet.hdr.kernel_offset) →
      ∀ e ∈ (extent_writer_recover_loop retry_max envs fuel i st).issues,
        IssueOk st.packet.hdr.kernel_offset st.es.enable_rdma e := by
  intro fuel
  induction fuel with
  | zero => intro i st hfresh e he; simp [extent_writer_recover_loop] at he
  | succ fuel ih =>
    intro i st hfresh e he
    simp only [extent_writer_recover_loop] at he
    split at he
    · simp at he
    · rename_i st₁ w alloc halloc
      have hs := recover_alloc_ok_spec (envs i) st st₁ w alloc halloc
      split at he
      · simp at he
      · split at he
        · split at he
          · simp only [List.mem_cons] at he
            rcases he with rfl | he
            · exact recover_issue_ok (envs i) st st₁ w alloc halloc hfresh
            · have hko2 : (recover_failed_st (envs i) st₁ w).packet.hdr.kernel_offset =
                  st.packet.hdr.kernel_offset := by
                simp [recover_failed_st, recover_pkt, recover_hdr2,
                  recover_rewrite_hdr, hs.1]
              have hrd2 : (recover_failed_st (envs i) st₁ w).es.enable_rdma =
                  st.es.enable_rdma := by
                simp [recover_failed_st, hs.2.1]
              have hres := ih (i+1) (recover_failed_st (envs i) st₁ w)
                (by intro hf; simp [recover_failed_st] at hf) e he
              rwa [hko2, hrd2] at hres
          · simp only [List.mem_singleton] at he
            subst he
            exact recover_issue_ok (envs i) st st₁ w alloc halloc hfresh
        · simp only [List.mem_singleton] at he
          subst he
          exact recover_issue_ok (envs i) st st₁ w alloc halloc hfresh

theorem recover_loop_writers (retry_max : Nat) (envs : Nat → RecoverEnv) :
    ∀ (fuel i : Nat) (st : RecoverState),
      (extent_writer_recover_loop retry_max envs fuel i st).st.es.nr_writers =
        st.es.nr_writers +
          (extent_writer_recover_loop retry_max envs fuel i st).allocated.length ∧
      (extent_writer_recover_loop retry_max envs fuel i st).st.es.writers.map
          (fun x => x.wid) =
        st.es.writers.map (fun x => x.wid) ++
          (extent_writer_recover_loop retry_max envs fuel i st).allocated.map
            (fun x => x.wid) ∧
      (extent_writer_recover_loop retry_max envs fuel i st).st.es.max_writers =
        st.es.max_writers := by
  intro fuel
  induction fuel with
  | zero => intro i st; simp [extent_writer_recover_loop]
  | succ fuel ih =>
    intro i st
    simp only [extent_writer_recover_loop]
    split
    · rename_i e st' halloc
      have hs := recover_alloc_error_spec (envs i) st e st' halloc
      simp [hs.1]
    · rename_i st₁ w alloc halloc
      have hs := recover_alloc_ok_spec (envs i) st st₁ w alloc halloc
      split
      · rename_i e harg
        simp [hs.2.2.2.2.1, hs.2.2.2.2.2.1, hs.2.2.1]
      · split
        · split
          · obtain ⟨ihn, ihw, ihm⟩ := ih (i+1) (recover_failed_st (envs i) st₁ w)
            have hnr : (recover_failed_st (envs i) st₁ w).es.nr_writers =
                st.es.nr_writers + alloc.length := by
              simp [recover_failed_st, hs.2.2.2.2.1]
            have hmax : (recover_failed_st (envs i) st₁ w).es.max_writers =
                st.es.max_writers := by
              simp [recover_failed_st, hs.2.2.1]
            have hmap : (recover_failed_st (envs i) st₁ w).es.writers.map
                (fun x => x.wid) =
                st.es.writers.map (fun x => x.wid) ++ alloc.map (fun x => x.wid) := by
              simp only [recover_failed_st]
              rw [markWriterError_map_wid, hs.2.2.2.2.2.1, List.map_append]
            refine ⟨?_, ?_, ?_⟩
            · simp only [List.length_append]
              omega
            · simp only [List.map_append, ihw, hmap, List.append_assoc]
            · simp only [ihm, hmax]
          · refine ⟨?_, ?_, ?_⟩
            · simp [recover_failed_st, hs.2.2.2.2.1]
            · simp only [recover_failed_st]
              rw [markWriterError_map_wid, hs.2.2.2.2.2.1, List.map_append]
            · simp [recover_failed_st, hs.2.2.1]
        · simp [hs.2.2.2.2.1, hs.2.2.2.2.2.1, hs.2.2.1]

theorem recover_loop_allocated_ok (retry_max : Nat) (envs : Nat → RecoverEnv) :
    ∀ (fuel i : Nat) (st : RecoverState),
      ∀ w ∈ (extent_writer_recover_loop retry_max envs fuel i st).allocated,
        w.file_offset = st.packet.hdr.kernel_offset := by
  intro fuel
  induction fuel with
  | zero => intro i st w hw; simp [extent_writer_recover_loop] at hw
  | succ fuel ih =>
    intro i st w hw
    simp only [extent_writer_recover_loop] at hw
    split at hw
    · simp at hw
    · rename_i st₁ w' alloc halloc
      have hs := recover_alloc_ok_spec (envs i) st st₁ w' alloc halloc
      have halst : ∀ x ∈ alloc, x.file_offset = st.packet.hdr.kernel_offset := by
        intro x hx
        rcases hs.2.2.2.2.2.2.2 with ⟨_, _, hal⟩ | ⟨_, hal, _, hfo, _, _⟩
        · subst hal; simp at hx
        · subst hal
          simp only [List.mem_singleton] at hx
          subst hx
          exact hfo
      split at hw
      · exact halst w hw
      · split at hw
        · split at hw
          · simp only [List.mem_append] at hw
            rcases hw with hw | hw
            · exact halst w hw
            · have hko2 : (recover_failed_st (envs i) st₁ w').packet.hdr.kernel_offset =
                  st.packet.hdr.kernel_offset := by
                simp [recover_failed_st, recover_pkt, recover_hdr2,
                  recover_rewrite_hdr, hs.1]
              have := ih (i+1) (recover_failed_st (envs i) st₁ w') w hw
              rwa [hko2] at this
          · exact halst w hw
        · exact halst w hw

/-- Claim C1: every request re-issued by writer recovery preserves the packet's
original kernel_offset; the header it carries holds the recovery writer's
partition id and extent id, ext_offset = kernel_offset minus (u64 arithmetic)
the recovery writer's file_offset, the recovery partition's follower count and
follower address list; and every recovery writer allocated by the call is
created at file_offset equal to the packet's kernel_offset. -/
theorem c1_recovery_header_rewrite (retry_max : Nat) (envs : Nat → RecoverEnv)
    (fuel : Nat) (es : cfs_extent_stream) (wrecover : Option cfs_extent_writer)
    (packet : cfs_packet) :
    (∀ e ∈ (extent_writer_recover retry_max envs fuel es wrecover packet).issues,
       IssueOk packet.hdr.kernel_offset es.enable_rdma e) ∧
    (∀ w ∈ (extent_writer_recover retry_max envs fuel es wrecover packet).allocated,
       w.file_offset = packet.hdr.kernel_offset) := by
  constructor
  · intro e he
    exact recover_loop_issues_ok retry_max envs fuel 0
      { es := es, wrecover := wrecover, fresh := false, packet := packet }
      (by intro hf; simp at hf) e he
  · intro w hw
    exact recover_loop_allocated_ok retry_max envs fuel 0
      { es := es, wrecover := wrecover, fresh := false, packet := packet } w hw

/-- data partition used by the concrete recovery runs below. -/
def wdp : cfs_data_partition := ⟨9, 2, 101, 202, 0, 3⟩

/-- write packet at kernel offset 4096 used by the concrete recovery runs. -/
def wpkt : cfs_packet := ⟨⟨0, 0, 0, 4096, 1024, 0, 77, none⟩, 0, 0, 0, none⟩

/-- stream with room for ten writers used by the concrete recovery runs. -/
def wes : cfs_extent_stream := ⟨0, 10, [], 0, false⟩

/-- oracle run in which allocation succeeds and every re-issue succeeds. -/
def wenv_ok : Nat → RecoverEnv := fun _ => ⟨.ok (wdp, 7), true, .ok (), 0, 0⟩

/-- oracle run in which allocation succeeds and every re-issue fails. -/
def wenv_fail : Nat → RecoverEnv := fun _ => ⟨.ok (wdp, 7), true, .ok (), -5, 0⟩

/-- Claim C1 witness: the header-rewrite property evaluated on the request
issued by a concrete successful recovery run. -/
theorem c1_recovery_header_rewrite_witness :
    IssueOk 4096 false
      ⟨⟨9, 7, 0, 4096, 1024, 2, 77, some 101⟩,
        ⟨0, wdp, 4096, 7, 0, 0, 0, false, false⟩, true, 1⟩ :=
  (c1_recovery_header_rewrite 2 wenv_ok 3 wes none wpkt).1 _ (by decide)

/-- Claim C2 counterexample: with REQUEST_RETRY_MAX = 2, a packet whose
pipeline send succeeds, whose receive reports a non-OK result code, and whose
recovery re-issues all fail is transmitted 4 times — more than
REQUEST_RETRY_MAX + 1 = 3 — refuting the claimed overall bound. -/
theorem c2_counterexample :
    (packet_lifecycle 2 3 0 ⟨-5, 1, wenv_fail⟩ wes false false none
        wpkt).transmissions = 2 + 2 ∧
    ¬ (packet_lifecycle 2 3 0 ⟨-5, 1, wenv_fail⟩ wes false false none
        wpkt).transmissions ≤ 2 + 1 := by
  constructor <;> decide

/-- Claim C2 (amended): each recovery attempt increments retry_count before
issuing (final retry_count = initial + number of re-issues); from a fresh
packet the loop performs at most REQUEST_RETRY_MAX + 1 re-issues; the loop
terminates whenever it is given at least REQUEST_RETRY_MAX + 1 iterations;
when every attempt fails within budget the loop returns the Io error; and no
packet is transmitted more than REQUEST_RETRY_MAX + 2 times in total — one
tx-pipeline send attempt plus at most REQUEST_RETRY_MAX + 1 synchronous
recovery re-issues. -/
theorem c2_bounded_recovery_retries (retry_max : Nat) :
    (∀ (envs : Nat → RecoverEnv) (fuel i : Nat) (st : RecoverState),
      (extent_writer_recover_loop retry_max envs fuel i st).st.packet.retry_count =
        st.packet.retry_count +
          (extent_writer_recover_loop retry_max envs fuel i st).issues.length) ∧
    (∀ (envs : Nat → RecoverEnv) (fuel i : Nat) (st : RecoverState),
      st.packet.retry_count ≤ retry_max →
      (extent_writer_recover_loop retry_max envs fuel i st).issues.length +
        st.packet.retry_count ≤ retry_max + 1) ∧
    (∀ (envs : Nat → RecoverEnv) (fuel i : Nat) (st : RecoverState),
      retry_max + 1 ≤ fuel + st.packet.retry_count → 1 ≤ fuel →
      ((extent_writer_recover_loop retry_max envs fuel i st).ret).isSome = true) ∧
    (∀ (envs : Nat → RecoverEnv) (fuel i : Nat) (st : RecoverState),
      (∀ j, recoverEnvUp (envs j)) → (∀ j, recoverEnvFail (envs j)) →
      st.packet.retry_count ≤ retry_max →
      retry_max + 1 ≤ fuel + st.packet.retry_count →
      st.es.nr_writers + retry_max + 1 ≤ st.es.max_writers + st.packet.retry_count →
      (extent_writer_recover_loop retry_max envs fuel i st).ret = some (-eio) ∧
      (extent_writer_recover_loop retry_max envs fuel i st).st.packet.retry_count =
        retry_max + 1) ∧
    (∀ (fuel : Nat) (send_ret : Int) (env : WriterRxEnv) (es : cfs_extent_stream)
       (fe fr : Bool) (wrecover : Option cfs_extent_writer) (packet : cfs_packet),
      packet.retry_count = 0 →
      (packet_lifecycle retry_max fuel send_ret env es fe fr wrecover
          packet).transmissions ≤ retry_max + 2) := by
  refine ⟨recover_loop_retry_count retry_max, recover_loop_issues_le retry_max,
    recover_loop_terminates retry_max,
    fun envs fuel i st hup hfail => recover_loop_exhausts retry_max envs hup hfail fuel i st,
    ?_⟩
  intro fuel send_ret env es fe fr wrecover packet h0
  have hb : ∀ (wrec : Option cfs_extent_writer) (pk : cfs_packet),
      pk.retry_count = 0 →
      (extent_writer_recover retry_max env.recover_envs fuel es wrec
        pk).issues.length ≤ retry_max + 1 := by
    intro wrec pk hpk
    have h := recover_loop_issues_le retry_max env.recover_envs fuel 0
      { es := es, wrecover := wrec, fresh := false, packet := pk }
      (by simp [hpk])
    simp only [hpk, Nat.add_zero] at h
    exact h
  have ho : ∀ fe' fr',
      (extent_writer_rx_packet retry_max fuel env es fe' fr' wrecover
        packet).issues.length ≤ retry_max + 1 := by
    intro fe' fr'
    rw [extent_writer_rx_packet]
    split
    · simp
    · split
      · rw [writer_rx_do_recover]
        exact hb wrecover packet h0
      · split
        · rw [writer_rx_do_recover]
          exact hb wrecover { packet with reply_result_code := env.recv_result_code } h0
        · simp
  have := ho (extent_writer_tx_step send_ret fe fr).1
    (extent_writer_tx_step send_ret fe fr).2.1
  show (if (extent_writer_tx_step send_ret fe fr).2.2 then 1 else 0) +
      (extent_writer_rx_packet retry_max fuel env es
        (extent_writer_tx_step send_ret fe fr).1
        (extent_writer_tx_step send_ret fe fr).2.1 wrecover
        packet).issues.length ≤ retry_max + 2
  split <;> omega

/-- Claim C2 witness: the amended bounds evaluated on the concrete all-failing
run with REQUEST_RETRY_MAX = 2: recovery returns the Io error with
retry_count 3 and the packet is transmitted at most 4 times. -/
theorem c2_bounded_recovery_retries_witness :
    ((extent_writer_recover_loop 2 wenv_fail 3 0 ⟨wes, none, false, wpkt⟩).ret =
        some (-eio) ∧
      (extent_writer_recover_loop 2 wenv_fail 3 0
          ⟨wes, none, false, wpkt⟩).st.packet.retry_count = 2 + 1) ∧
    (packet_lifecycle 2 3 0 ⟨-5, 1, wenv_fail⟩ wes false false none
        wpkt).transmissions ≤ 2 + 2 := by
  have h := c2_bounded_recovery_retries 2
  refine ⟨h.2.2.2.1 wenv_fail 3 0 ⟨wes, none, false, wpkt⟩ ?_ ?_ (by decide)
      (by decide) (by decide),
    h.2.2.2.2 3 0 ⟨-5, 1, wenv_fail⟩ wes false false none wpkt rfl⟩
  · intro j; exact ⟨⟨(wdp, 7), rfl⟩, rfl, rfl⟩
  · intro j; exact Or.inl (show (-5 : Int) < 0 by decide)

/-- Claim C9: every writer allocated during recovery is appended to the
stream's writer list and bumps nr_writers, which the failure path never
decrements — after any recovery run the stream's nr_writers equals its initial
value plus the number of writers allocated, and the final writer list is the
initial list extended by exactly the allocated writers (ERROR-marked ones
included); consequently repeated recovery for one packet consumes the
max_writers budget, and the concrete run with max_writers = 1 and
REQUEST_RETRY_MAX = 2 fails with PermissionDenied at retry_count 1. -/
theorem c9_recovery_writer_accounting :
    (∀ (retry_max : Nat) (envs : Nat → RecoverEnv) (fuel : Nat)
       (es : cfs_extent_stream) (wrecover : Option cfs_extent_writer)
       (packet : cfs_packet),
      (extent_writer_recover retry_max envs fuel es wrecover
          packet).st.es.nr_writers =
        es.nr_writers +
          (extent_writer_recover retry_max envs fuel es wrecover
            packet).allocated.length ∧
      (extent_writer_recover retry_max envs fuel es wrecover
          packet).st.es.writers.map (fun x => x.wid) =
        es.writers.map (fun x => x.wid) ++
          (extent_writer_recover retry_max envs fuel es wrecover
            packet).allocated.map (fun x => x.wid)) ∧
    ((extent_writer_recover 2 wenv_fail 3 ⟨0, 1, [], 0, false⟩ none wpkt).ret =
        some (-eperm) ∧
      (extent_writer_recover 2 wenv_fail 3 ⟨0, 1, [], 0, false⟩ none
          wpkt).st.packet.error = -eperm ∧
      (extent_writer_recover 2 wenv_fail 3 ⟨0, 1, [], 0, false⟩ none
          wpkt).st.packet.retry_count = 1 ∧
      1 ≤ 2 ∧
      (extent_writer_recover 2 wenv_fail 3 ⟨0, 1, [], 0, false⟩ none
          wpkt).allocated.length = 1) := by
  constructor
  · intro retry_max envs fuel es wrecover packet
    have h := recover_loop_writers retry_max envs fuel 0
      { es := es, wrecover := wrecover, fresh := false, packet := packet }
    exact ⟨h.1, h.2.1⟩
  · refine ⟨by decide, by decide, by decide, by decide, by decide⟩

end CFS
